import Mathlib

/-!
Shallow embedding of `src/resources/python/lightning_whisper_transcriber.py`,
a CLI adapter around the `lightning-whisper-mlx` speech-to-text library.
The program parses arguments with `argparse`, dispatches to one of three
modes (check-deps, install-deps, transcribe) and prints exactly one JSON
document on stdout.

External collaborators (the Python import machinery, the pip subprocess,
the filesystem, the inference engine) are modelled by an `Env` record over
which theorems quantify.  The observable behaviour of one invocation is an
`Outcome`: stdout lines, stderr lines, exit code and the trace of calls
made into the collaborators.
-/

/-- JSON values as produced by `json.dumps` on the program's result dicts.
Objects keep insertion order, as Python dicts and `json.dumps` do. -/
inductive Json where
  | null
  | bool (b : Bool)
  | num (n : Int)
  | str (s : String)
  | arr (xs : List Json)
  | obj (fields : List (String × Json))


/-- First-match key lookup in a JSON object; `none` on non-objects. -/
def Json.lookup : Json → String → Option Json
  | .obj fields, k => (fields.find? (fun p => p.1 == k)).map Prod.snd
  | _, _ => none

/-- The keys of a JSON object, in order; `[]` on non-objects. -/
def Json.keys : Json → List String
  | .obj fields => fields.map Prod.fst
  | _ => []

/-- One line of an output stream: either a serialized JSON document
(`print(json.dumps(result))`) or plain text (argparse usage, diagnostics). -/
inductive Line where
  | jsonLine (j : Json)
  | textLine (s : String)


/-- Calls the program makes into its external collaborators. -/
inductive Effect where
  | constructEngine (model : String) (batchSize : Int) (quant : Option String)
  | transcribeCall (audioPath : String)
  | runInstaller


/-- Raw result dict returned by the engine's `transcribe` call.  The source
reads it with `result.get("text", "")`, `result.get("segments", [])`,
`result.get("language", "")`, so each field is an optional JSON value. -/
structure RawResult where
  text : Option Json
  segments : Option Json
  language : Option Json


/-- Behaviour of the external collaborators for one invocation:
whether `import lightning_whisper_mlx` succeeds (and the textual form of
the `ImportError` it raises otherwise), whether the
`LightningWhisperMLX(model=..., batch_size=..., quant=...)` constructor
raises (with which message), what `whisper.transcribe(audio_path=...)`
does (raise, or return a raw dict), the pip subprocess's exit code and
captured streams, and `os.path.exists`.  Failures of the import, the
constructor and the transcription call are modelled as the exception's
textual description (`str(e)`), matching the claims' and spec's error
taxonomy. -/
structure Env where
  importOk : Bool
  importErrorMsg : String
  ctorError : String → Int → Option String → Option String
  transcribeOutcome : String → Except String RawResult
  installerExit : Nat
  installerStdout : String
  installerStderr : String
  fileExists : String → Bool

/-- Embeds `check_dependencies` (lines 12-18): `import lightning_whisper_mlx`
inside `try`, returning `True` on success and `False` on `ImportError`. -/
def check_dependencies (env : Env) : Bool :=
  env.importOk

/-- Embeds `install_dependencies` (lines 20-36): run pip with
`capture_output=True, check=True`; on `CalledProcessError` (non-zero exit)
print a diagnostic to stderr and return `False`, else return `True`.
Returns (result, stderr lines written by this function). -/
def install_dependencies (env : Env) : Bool × List String :=
  if env.installerExit = 0 then
    (true, [])
  else
    (false, ["Installation failed: " ++ env.installerStderr])

/-- The success-result dict built at lines 64-72 of `transcribe_audio`. -/
def successJson (r : RawResult) (model : String) (batchSize : Int)
    (quant : Option String) : Json :=
  .obj [("success", .bool true),
        ("text", r.text.getD (.str "")),
        ("segments", r.segments.getD (.arr [])),
        ("language", r.language.getD (.str "")),
        ("model", .str model),
        ("batch_size", .num batchSize),
        ("quant", (quant.map Json.str).getD .null)]

/-- The failure-result dict built at lines 75-81 of `transcribe_audio`. -/
def failJson (errMsg : String) (model : String) (batchSize : Int)
    (quant : Option String) : Json :=
  .obj [("success", .bool false),
        ("error", .str errMsg),
        ("model", .str model),
        ("batch_size", .num batchSize),
        ("quant", (quant.map Json.str).getD .null)]

/-- Embeds `transcribe_audio` (lines 38-81).  Everything in the `try` body
(the `from lightning_whisper_mlx import ...`, the constructor call, the
`transcribe` call) can raise; `except Exception as e` converts any such
exception to the failure dict with `error = str(e)`.  Returns the result
dict together with the trace of engine calls made. -/
def transcribe_audio (env : Env) (audio_path : String)
    (model : String) (batch_size : Int) (quant : Option String) :
    Json × List Effect :=
  if env.importOk then
    match env.ctorError model batch_size quant with
    | some msg =>
        (failJson msg model batch_size quant,
         [.constructEngine model batch_size quant])
    | none =>
        match env.transcribeOutcome audio_path with
        | .error msg =>
            (failJson msg model batch_size quant,
             [.constructEngine model batch_size quant,
              .transcribeCall audio_path])
        | .ok r =>
            (successJson r model batch_size quant,
             [.constructEngine model batch_size quant,
              .transcribeCall audio_path])
  else
    (failJson env.importErrorMsg model batch_size quant, [])

/-- Parsed argument namespace produced by `parser.parse_args()`
(lines 84-92): optional positional `audio_path`, `--model` defaulting to
`"distil-medium.en"`, `--batch-size` (int) defaulting to `12`, `--quant`
restricted to `{4bit, 8bit}` with no default, and the two mode flags. -/
structure Args where
  audio_path : Option String
  model : String
  batch_size : Int
  quant : Option String
  check_deps : Bool
  install_deps : Bool


/-- The default namespace before any token is consumed. -/
def defaultArgs : Args :=
  { audio_path := none, model := "distil-medium.en", batch_size := 12,
    quant := none, check_deps := false, install_deps := false }

/-- Value of a decimal digit character, `none` otherwise. -/
def digit? (c : Char) : Option Nat :=
  if 48 ≤ c.toNat ∧ c.toNat ≤ 57 then some (c.toNat - 48) else none

/-- Left fold accumulating a decimal number from a digit list;
`none` on any non-digit. -/
def digitsVal : List Char → Nat → Option Nat
  | [], acc => some acc
  | c :: rest, acc =>
    match digit? c with
    | some d => digitsVal rest (acc * 10 + d)
    | none => none

/-- Models Python's `int()` conversion used by `type=int` on
`--batch-size`: an optional leading minus sign followed by at least one
decimal digit; `none` (a `ValueError` in Python, hence an argparse
rejection) otherwise.  `int()`'s tolerance for surrounding whitespace,
underscores and a leading plus sign is not modelled. -/
def strToInt (s : String) : Option Int :=
  match s.data with
  | [] => none
  | c :: rest =>
    if c == Char.ofNat 45 then
      match rest with
      | [] => none
      | _ => (digitsVal rest 0).map (fun n => -(n : Int))
    else
      (digitsVal (c :: rest) 0).map (fun n => (n : Int))

/-- A token argparse treats as an option rather than a positional:
it starts with `-` and is not the bare `-`. -/
def isOptionLike (tok : String) : Bool :=
  match tok.data with
  | c :: _ :: _ => c == Char.ofNat 45
  | _ => false

/-- Token loop of the argparse model: consume the argument vector,
updating the namespace.  Declared options consume their value and are
validated (`--batch-size` must parse as an int, `--quant` must be one of
the two choices); an option-like token that is not declared, and a second
positional, are rejected as argparse does (`error` → usage on stderr,
exit 2).  Abbreviated and `--opt=value` spellings are not modelled. -/
def parseLoop : List String → Args → Except String Args
  | [], acc => .ok acc
  | tok :: rest, acc =>
    if tok = "--model" then
      match rest with
      | v :: rest' => parseLoop rest' { acc with model := v }
      | [] => .error "argument --model: expected one argument"
    else if tok = "--batch-size" then
      match rest with
      | v :: rest' =>
        match strToInt v with
        | some n => parseLoop rest' { acc with batch_size := n }
        | none => .error ("argument --batch-size: invalid int value: " ++ v)
      | [] => .error "argument --batch-size: expected one argument"
    else if tok = "--quant" then
      match rest with
      | v :: rest' =>
        if v = "4bit" ∨ v = "8bit" then
          parseLoop rest' { acc with quant := some v }
        else
          .error ("argument --quant: invalid choice: " ++ v)
      | [] => .error "argument --quant: expected one argument"
    else if tok = "--check-deps" then
      parseLoop rest { acc with check_deps := true }
    else if tok = "--install-deps" then
      parseLoop rest { acc with install_deps := true }
    else if isOptionLike tok then
      .error ("unrecognized arguments: " ++ tok)
    else
      match acc.audio_path with
      | none => parseLoop rest { acc with audio_path := some tok }
      | some _ => .error ("unrecognized arguments: " ++ tok)

/-- Embeds `parser.parse_args()` on the given argument vector. -/
def parseArgs (argv : List String) : Except String Args :=
  parseLoop argv defaultArgs

/-- Observable behaviour of one invocation: stdout lines, stderr lines,
process exit code, and the trace of collaborator calls. -/
structure Outcome where
  stdoutLines : List Line
  stderrLines : List String
  exitCode : Nat
  effects : List Effect


/-- Embeds the post-parse part of `main` (lines 94-147): `--check-deps`
prints the dependency-check JSON and returns (exit 0); else
`--install-deps` runs pip and prints the install JSON (exit 0); else the
three transcription pre-flight checks each print a `success:false` JSON
and `sys.exit(1)`; else `transcribe_audio` runs and its dict is printed
(exit 0). -/
def dispatchArgs (env : Env) (args : Args) : Outcome :=
    if args.check_deps then
      { stdoutLines :=
          [.jsonLine (.obj [("dependencies_installed",
                             .bool (check_dependencies env))])],
        stderrLines := [], exitCode := 0, effects := [] }
    else if args.install_deps then
      let res := install_dependencies env
      { stdoutLines := [.jsonLine (.obj [("installation_success", .bool res.1)])],
        stderrLines := res.2, exitCode := 0, effects := [.runInstaller] }
    else
      match args.audio_path with
      | none =>
          { stdoutLines :=
              [.jsonLine (.obj [("success", .bool false),
                  ("error", .str "Audio file path is required for transcription")])],
            stderrLines := [], exitCode := 1, effects := [] }
      | some path =>
        if check_dependencies env = false then
          { stdoutLines :=
              [.jsonLine (.obj [("success", .bool false),
                  ("error", .str "lightning-whisper-mlx is not installed. Please install it first.")])],
            stderrLines := [], exitCode := 1, effects := [] }
        else if env.fileExists path = false then
          { stdoutLines :=
              [.jsonLine (.obj [("success", .bool false),
                  ("error", .str ("Audio file not found: " ++ path))])],
            stderrLines := [], exitCode := 1, effects := [] }
        else
          let res := transcribe_audio env path args.model args.batch_size args.quant
          { stdoutLines := [.jsonLine res.1],
            stderrLines := [], exitCode := 0, effects := res.2 }

/-- Process-level behaviour of one invocation: parse, then dispatch.
An argparse rejection prints its message to stderr and exits the process
with status 2, before any mode is dispatched. -/
def mainRun (env : Env) (argv : List String) : Outcome :=
  match parseArgs argv with
  | .error msg =>
      { stdoutLines := [], stderrLines := [msg], exitCode := 2, effects := [] }
  | .ok args => dispatchArgs env args

/-- A concrete environment for witnesses: dependency installed, engine
constructs fine and returns `{"text": "hello", "segments": [], "language":
"en"}`, pip succeeds, every file exists. -/
def env0 : Env :=
  { importOk := true,
    importErrorMsg := "No module named lightning_whisper_mlx",
    ctorError := fun _ _ _ => none,
    transcribeOutcome := fun _ =>
      .ok { text := some (.str "hello"), segments := some (.arr []),
            language := some (.str "en") },
    installerExit := 0,
    installerStdout := "",
    installerStderr := "",
    fileExists := fun _ => true }

/-- Environment in which the engine's `transcribe` call raises an
exception whose textual description is `"boom"`. -/
def envBoom : Env :=
  { env0 with transcribeOutcome := fun _ => .error "boom" }

/-- Parsing a single non-option token yields the default namespace with
that token as the positional `audio_path`. -/
theorem parse_single_positional (p : String) (h : isOptionLike p = false) :
    parseArgs [p] = .ok { defaultArgs with audio_path := some p } := by
  have h1 : p ≠ "--model" := by rintro rfl; exact absurd h (by decide)
  have h2 : p ≠ "--batch-size" := by rintro rfl; exact absurd h (by decide)
  have h3 : p ≠ "--quant" := by rintro rfl; exact absurd h (by decide)
  have h4 : p ≠ "--check-deps" := by rintro rfl; exact absurd h (by decide)
  have h5 : p ≠ "--install-deps" := by rintro rfl; exact absurd h (by decide)
  simp [parseArgs, parseLoop, h1, h2, h3, h4, h5, h, defaultArgs]

/-- C1: in transcribe mode, when the audio path is given, the dependency
resolves and the file exists, the program constructs the engine with the
parsed model (default `distil-medium.en`), batch size (default 12) and
quant (absent by default), calls its transcription entry point on the
audio path, and emits a success result whose text, segments and language
come from the engine's result (defaulting to `""`, `[]`, `""` when
omitted), with `success=true` and the parameters echoed back; exit 0. -/
theorem spec_c1 (env : Env) (path : String) (r : RawResult)
    (hopt : isOptionLike path = false)
    (himp : env.importOk = true)
    (hctor : env.ctorError "distil-medium.en" 12 none = none)
    (htr : env.transcribeOutcome path = .ok r)
    (hfile : env.fileExists path = true) :
    mainRun env [path] =
      { stdoutLines := [.jsonLine (successJson r "distil-medium.en" 12 none)],
        stderrLines := [],
        exitCode := 0,
        effects := [.constructEngine "distil-medium.en" 12 none,
                    .transcribeCall path] } := by
  simp [mainRun, parse_single_positional path hopt, dispatchArgs,
        check_dependencies, transcribe_audio, himp, hctor, htr, hfile,
        defaultArgs]

/-- Witness for C1 at `env0` and path `a.wav`. -/
theorem spec_c1_witness :
    isOptionLike "a.wav" = false ∧
    env0.importOk = true ∧
    env0.ctorError "distil-medium.en" 12 none = none ∧
    env0.transcribeOutcome "a.wav" =
      .ok { text := some (.str "hello"), segments := some (.arr []),
            language := some (.str "en") } ∧
    env0.fileExists "a.wav" = true ∧
    mainRun env0 ["a.wav"] =
      { stdoutLines := [.jsonLine (successJson
          { text := some (.str "hello"), segments := some (.arr []),
            language := some (.str "en") } "distil-medium.en" 12 none)],
        stderrLines := [],
        exitCode := 0,
        effects := [.constructEngine "distil-medium.en" 12 none,
                    .transcribeCall "a.wav"] } :=
  ⟨rfl, rfl, rfl, rfl, rfl,
   spec_c1 env0 "a.wav" _ rfl rfl rfl rfl rfl⟩

/-- C2: every exception raised during engine construction or during the
transcription call is caught; the program emits the failure schema with
`success=false`, `error` the exception's textual description and the
parameters echoed back, and exits 0, not 1. -/
theorem spec_c2 (env : Env) (path msg : String)
    (hopt : isOptionLike path = false)
    (himp : env.importOk = true)
    (hfile : env.fileExists path = true)
    (hexc : env.ctorError "distil-medium.en" 12 none = some msg ∨
            (env.ctorError "distil-medium.en" 12 none = none ∧
             env.transcribeOutcome path = .error msg)) :
    (mainRun env [path]).stdoutLines =
      [.jsonLine (failJson msg "distil-medium.en" 12 none)] ∧
    (mainRun env [path]).exitCode = 0 := by
  rcases hexc with hc | hct
  · simp [mainRun, parse_single_positional path hopt, dispatchArgs,
          check_dependencies, transcribe_audio, himp, hfile, hc, defaultArgs]
  · obtain ⟨hc, ht⟩ := hct
    simp [mainRun, parse_single_positional path hopt, dispatchArgs,
          check_dependencies, transcribe_audio, himp, hfile, hc, ht,
          defaultArgs]

/-- Witness for C2 at `envBoom`, where `transcribe` raises `"boom"`. -/
theorem spec_c2_witness :
    isOptionLike "a.wav" = false ∧
    envBoom.importOk = true ∧
    envBoom.fileExists "a.wav" = true ∧
    envBoom.ctorError "distil-medium.en" 12 none = none ∧
    envBoom.transcribeOutcome "a.wav" = .error "boom" ∧
    (mainRun envBoom ["a.wav"]).stdoutLines =
      [.jsonLine (failJson "boom" "distil-medium.en" 12 none)] ∧
    (mainRun envBoom ["a.wav"]).exitCode = 0 :=
  ⟨rfl, rfl, rfl, rfl, rfl,
   spec_c2 envBoom "a.wav" "boom" rfl rfl rfl (Or.inr ⟨rfl, rfl⟩)⟩

/-- A successful parse reduces `mainRun` to the post-parse dispatch. -/
theorem mainRun_ok (env : Env) (argv : List String) (args : Args)
    (h : parseArgs argv = .ok args) :
    mainRun env argv = dispatchArgs env args := by
  simp [mainRun, h]

/-- C3 counterexample: an invocation rejected by the argument parser
(`--batch-size notanint`) exits with code 2, which is neither 0 nor one
of the three pre-flight exit-1 paths the claim allows. -/
theorem spec_c3_counterexample :
    (mainRun env0 ["--batch-size", "notanint"]).exitCode = 2 := by rfl

/-- C3 amended: for every invocation whose arguments parse successfully,
the exit code is 0 on all paths except the three transcribe-mode
pre-flight failures, each of which emits a `success=false` JSON document
and exits 1 (missing audio path, unresolvable dependency, nonexistent
audio file); invocations rejected by the argument parser exit 2. -/
theorem spec_c3 (env : Env) (argv : List String) (args : Args)
    (h : parseArgs argv = .ok args) :
    (mainRun env argv).exitCode = 0 ∨
    ((mainRun env argv).exitCode = 1 ∧ ∃ msg,
      (mainRun env argv).stdoutLines =
        [.jsonLine (.obj [("success", .bool false), ("error", .str msg)])] ∧
      (msg = "Audio file path is required for transcription" ∨
       msg = "lightning-whisper-mlx is not installed. Please install it first." ∨
       ∃ p, args.audio_path = some p ∧ msg = "Audio file not found: " ++ p)) := by
  rw [mainRun_ok env argv args h]
  by_cases hcd : args.check_deps = true
  · left; simp [dispatchArgs, hcd]
  · by_cases hid : args.install_deps = true
    · left; simp [dispatchArgs, hcd, hid]
    · rcases hap : args.audio_path with _ | p
      · right
        refine ⟨by simp [dispatchArgs, hcd, hid, hap],
                "Audio file path is required for transcription",
                by simp [dispatchArgs, hcd, hid, hap], Or.inl rfl⟩
      · by_cases hdep : check_dependencies env = false
        · right
          refine ⟨by simp [dispatchArgs, hcd, hid, hap, hdep],
                  "lightning-whisper-mlx is not installed. Please install it first.",
                  by simp [dispatchArgs, hcd, hid, hap, hdep],
                  Or.inr (Or.inl rfl)⟩
        · by_cases hfe : env.fileExists p = false
          · right
            refine ⟨by simp [dispatchArgs, hcd, hid, hap, hdep, hfe],
                    "Audio file not found: " ++ p,
                    by simp [dispatchArgs, hcd, hid, hap, hdep, hfe],
                    Or.inr (Or.inr ⟨p, rfl, rfl⟩)⟩
          · left; simp [dispatchArgs, hcd, hid, hap, hdep, hfe]

/-- Witness for the amended C3 at the empty argument vector. -/
theorem spec_c3_witness :
    parseArgs [] = .ok defaultArgs ∧
    ((mainRun env0 []).exitCode = 0 ∨
     ((mainRun env0 []).exitCode = 1 ∧ ∃ msg,
       (mainRun env0 []).stdoutLines =
         [.jsonLine (.obj [("success", .bool false), ("error", .str msg)])] ∧
       (msg = "Audio file path is required for transcription" ∨
        msg = "lightning-whisper-mlx is not installed. Please install it first." ∨
        ∃ p, defaultArgs.audio_path = some p ∧
          msg = "Audio file not found: " ++ p))) :=
  ⟨rfl, spec_c3 env0 [] defaultArgs rfl⟩

/-- C4: in check-deps mode, for every outcome of the dependency
resolution, the program prints exactly one JSON document
`{dependencies_installed: b}` with `b` the resolution outcome, writes
nothing to stderr, exits 0, and makes no engine or installer call. -/
theorem spec_c4 (env : Env) :
    mainRun env ["--check-deps"] =
      { stdoutLines := [.jsonLine (.obj [("dependencies_installed",
          .bool (check_dependencies env))])],
        stderrLines := [], exitCode := 0, effects := [] } := rfl

/-- C5: in install-deps mode, stdout is exactly the one JSON line
`{installation_success: b}` (the captured installer streams never appear
on it), `b` holds exactly when the installer exited 0, a diagnostic
naming the installer's stderr is written to the program's stderr on
non-zero installer exit, and the process exits 0 regardless. -/
theorem spec_c5 (env : Env) :
    mainRun env ["--install-deps"] =
      { stdoutLines := [.jsonLine (.obj [("installation_success",
          .bool (install_dependencies env).1)])],
        stderrLines := if env.installerExit = 0 then []
          else ["Installation failed: " ++ env.installerStderr],
        exitCode := 0,
        effects := [.runInstaller] } ∧
    ((install_dependencies env).1 = true ↔ env.installerExit = 0) := by
  constructor
  · by_cases hi : env.installerExit = 0 <;>
      simp [mainRun, parseArgs, parseLoop, defaultArgs, dispatchArgs,
            install_dependencies, hi]
  · by_cases hi : env.installerExit = 0 <;> simp [install_dependencies, hi]

/-- C6 counterexample: with arguments the parser rejects
(`--quant 16bit`), stdout contains no JSON line at all (argparse prints
to stderr and exits 2), so stdout is not exactly one valid JSON line. -/
theorem spec_c6_counterexample :
    (mainRun env0 ["--quant", "16bit"]).stdoutLines = [] ∧
    (mainRun env0 ["--quant", "16bit"]).exitCode = 2 := ⟨rfl, rfl⟩

/-- C6 amended: for every invocation whose arguments parse successfully,
whatever the external collaborators do, stdout contains exactly one line
and it is a JSON document; invocations rejected by the argument parser
emit no stdout line and exit 2. -/
theorem spec_c6 (env : Env) (argv : List String) (args : Args)
    (h : parseArgs argv = .ok args) :
    ∃ j, (mainRun env argv).stdoutLines = [Line.jsonLine j] := by
  rw [mainRun_ok env argv args h]
  by_cases hcd : args.check_deps = true
  · exact ⟨.obj [("dependencies_installed", .bool (check_dependencies env))],
           by simp [dispatchArgs, hcd]⟩
  · by_cases hid : args.install_deps = true
    · exact ⟨.obj [("installation_success", .bool (install_dependencies env).1)],
             by simp [dispatchArgs, hcd, hid]⟩
    · rcases hap : args.audio_path with _ | p
      · exact ⟨.obj [("success", .bool false),
                     ("error", .str "Audio file path is required for transcription")],
               by simp [dispatchArgs, hcd, hid, hap]⟩
      · by_cases hdep : check_dependencies env = false
        · exact ⟨.obj [("success", .bool false),
                       ("error", .str "lightning-whisper-mlx is not installed. Please install it first.")],
                 by simp [dispatchArgs, hcd, hid, hap, hdep]⟩
        · by_cases hfe : env.fileExists p = false
          · exact ⟨.obj [("success", .bool false),
                         ("error", .str ("Audio file not found: " ++ p))],
                   by simp [dispatchArgs, hcd, hid, hap, hdep, hfe]⟩
          · exact ⟨(transcribe_audio env p args.model args.batch_size args.quant).1,
                   by simp [dispatchArgs, hcd, hid, hap, hdep, hfe]⟩

/-- Witness for the amended C6 in check-deps mode. -/
theorem spec_c6_witness :
    parseArgs ["--check-deps"] = .ok { defaultArgs with check_deps := true } ∧
    ∃ j, (mainRun env0 ["--check-deps"]).stdoutLines = [Line.jsonLine j] :=
  ⟨rfl, spec_c6 env0 ["--check-deps"] { defaultArgs with check_deps := true } rfl⟩

/-- C7 counterexample: the missing-audio-path pre-flight failure emits a
`success=false` document whose keys are only `success` and `error`: it
has no `model` field, contradicting the claimed failure shape. -/
theorem spec_c7_counterexample :
    (mainRun env0 []).stdoutLines =
      [.jsonLine (.obj [("success", .bool false),
        ("error", .str "Audio file path is required for transcription")])] ∧
    Json.lookup (.obj [("success", .bool false),
        ("error", .str "Audio file path is required for transcription")])
      "model" = none := ⟨rfl, rfl⟩

/-- C7 amended: every failure result returned by `transcribe_audio`
carries `error` and echoes `model`, `batch_size` and `quant` (as does
every success result); the pre-flight failures, by contrast, emit a
`success=false` document carrying only `success` and `error`, and they
are the only transcribe-mode paths that exit 1. -/
theorem spec_c7 (env : Env) (argv : List String) (args : Args)
    (audio model : String) (bs : Int) (quant : Option String)
    (h : parseArgs argv = .ok args)
    (hcd : args.check_deps = false) (hid : args.install_deps = false) :
    ((∃ msg, (transcribe_audio env audio model bs quant).1 =
        failJson msg model bs quant) ∨
     (∃ r, (transcribe_audio env audio model bs quant).1 =
        successJson r model bs quant)) ∧
    ((mainRun env argv).exitCode = 0 ∨
     ((mainRun env argv).exitCode = 1 ∧ ∃ msg,
        (mainRun env argv).stdoutLines =
          [.jsonLine (.obj [("success", .bool false),
                            ("error", .str msg)])])) := by
  constructor
  · unfold transcribe_audio
    by_cases himp : env.importOk
    · rw [if_pos himp]
      cases hc : env.ctorError model bs quant with
      | some msg => exact Or.inl ⟨msg, rfl⟩
      | none =>
        cases ht : env.transcribeOutcome audio with
        | error msg => exact Or.inl ⟨msg, rfl⟩
        | ok r => exact Or.inr ⟨r, rfl⟩
    · rw [if_neg himp]
      exact Or.inl ⟨env.importErrorMsg, rfl⟩
  · rw [mainRun_ok env argv args h]
    rcases hap : args.audio_path with _ | p
    · right
      exact ⟨by simp [dispatchArgs, hcd, hid, hap],
             "Audio file path is required for transcription",
             by simp [dispatchArgs, hcd, hid, hap]⟩
    · by_cases hdep : check_dependencies env = false
      · right
        exact ⟨by simp [dispatchArgs, hcd, hid, hap, hdep],
               "lightning-whisper-mlx is not installed. Please install it first.",
               by simp [dispatchArgs, hcd, hid, hap, hdep]⟩
      · by_cases hfe : env.fileExists p = false
        · right
          exact ⟨by simp [dispatchArgs, hcd, hid, hap, hdep, hfe],
                 "Audio file not found: " ++ p,
                 by simp [dispatchArgs, hcd, hid, hap, hdep, hfe]⟩
        · left; simp [dispatchArgs, hcd, hid, hap, hdep, hfe]

/-- Witness for the amended C7 at a concrete transcribe invocation. -/
theorem spec_c7_witness :
    parseArgs ["b.wav"] = .ok { defaultArgs with audio_path := some "b.wav" } ∧
    (({ defaultArgs with audio_path := some "b.wav" } : Args).check_deps = false) ∧
    (({ defaultArgs with audio_path := some "b.wav" } : Args).install_deps = false) ∧
    (((∃ msg, (transcribe_audio env0 "b.wav" "m" 3 (some "4bit")).1 =
        failJson msg "m" 3 (some "4bit")) ∨
      (∃ r, (transcribe_audio env0 "b.wav" "m" 3 (some "4bit")).1 =
        successJson r "m" 3 (some "4bit"))) ∧
     ((mainRun env0 ["b.wav"]).exitCode = 0 ∨
      ((mainRun env0 ["b.wav"]).exitCode = 1 ∧ ∃ msg,
         (mainRun env0 ["b.wav"]).stdoutLines =
           [.jsonLine (.obj [("success", .bool false),
                             ("error", .str msg)])]))) :=
  ⟨rfl, rfl, rfl,
   spec_c7 env0 ["b.wav"] { defaultArgs with audio_path := some "b.wav" }
     "b.wav" "m" 3 (some "4bit") rfl rfl rfl⟩

/-- C8: every value of `--quant` outside `{4bit, 8bit}` is rejected at
argument-parse time, before any mode is dispatched (no stdout, no
collaborator call, exit 2), while `4bit` and `8bit` are accepted. -/
theorem spec_c8 (env : Env) (v : String) (h4 : v ≠ "4bit") (h8 : v ≠ "8bit") :
    mainRun env ["--quant", v] =
      { stdoutLines := [],
        stderrLines := ["argument --quant: invalid choice: " ++ v],
        exitCode := 2, effects := [] } ∧
    parseArgs ["--quant", "4bit"] =
      .ok { defaultArgs with quant := some "4bit" } ∧
    parseArgs ["--quant", "8bit"] =
      .ok { defaultArgs with quant := some "8bit" } := by
  refine ⟨?_, rfl, rfl⟩
  simp [mainRun, parseArgs, parseLoop, h4, h8]

/-- Witness for C8 at the rejected value `2bit`. -/
theorem spec_c8_witness :
    ("2bit" : String) ≠ "4bit" ∧ ("2bit" : String) ≠ "8bit" ∧
    (mainRun env0 ["--quant", "2bit"] =
      { stdoutLines := [],
        stderrLines := ["argument --quant: invalid choice: " ++ "2bit"],
        exitCode := 2, effects := [] } ∧
     parseArgs ["--quant", "4bit"] =
       .ok { defaultArgs with quant := some "4bit" } ∧
     parseArgs ["--quant", "8bit"] =
       .ok { defaultArgs with quant := some "8bit" }) :=
  ⟨by decide, by decide, spec_c8 env0 "2bit" (by decide) (by decide)⟩

/-- C9: when both `--check-deps` and `--install-deps` are given,
dependency-check mode takes precedence: only the
`{dependencies_installed: b}` document is emitted and the installer
subprocess is never invoked. -/
theorem spec_c9 (env : Env) :
    mainRun env ["--check-deps", "--install-deps"] =
      { stdoutLines := [.jsonLine (.obj [("dependencies_installed",
          .bool (check_dependencies env))])],
        stderrLines := [], exitCode := 0, effects := [] } ∧
    Effect.runInstaller ∉
      (mainRun env ["--check-deps", "--install-deps"]).effects := by
  refine ⟨rfl, ?_⟩
  have h : (mainRun env ["--check-deps", "--install-deps"]).effects = [] := rfl
  rw [h]
  exact List.not_mem_nil _

/-- C10: `transcribe_audio` echoes its `model`, `batch_size` and `quant`
arguments unchanged in the result dict, in the success branch and in the
exception branch alike. -/
theorem spec_c10 (env : Env) (audio model : String) (bs : Int)
    (quant : Option String) :
    Json.lookup (transcribe_audio env audio model bs quant).1 "model" =
      some (.str model) ∧
    Json.lookup (transcribe_audio env audio model bs quant).1 "batch_size" =
      some (.num bs) ∧
    Json.lookup (transcribe_audio env audio model bs quant).1 "quant" =
      some ((quant.map Json.str).getD .null) := by
  unfold transcribe_audio
  by_cases himp : env.importOk
  · rw [if_pos himp]
    cases hc : env.ctorError model bs quant with
    | some msg => exact ⟨rfl, rfl, rfl⟩
    | none =>
      cases ht : env.transcribeOutcome audio with
      | error msg => exact ⟨rfl, rfl, rfl⟩
      | ok r => exact ⟨rfl, rfl, rfl⟩
  · rw [if_neg himp]
    exact ⟨rfl, rfl, rfl⟩
